import Mathlib

/-!
Verification of the unit-economics engine of `@aiready/core` (business metrics):
token-budget calculation, cost estimation, acceptance-rate prediction and
value-chain generation. The engine module itself (`src/business-metrics.ts`)
is not in the source snapshot; only its test suites are. The definitions
below are therefore modelled from the specification, with the concrete
values of the test suites (`business-metrics.v0.12.test.ts`,
`business-metrics.v0.13.test.ts`) proved as anchors. Real-number arithmetic
is embedded in the rationals.
-/

namespace AIReady

/-- Modelled from the spec: `WastedTokenBreakdown` — the three non-negative
waste categories reported by upstream analyzers (the engine source
`business-metrics.ts` is missing from the snapshot). -/
structure WastedTokenBreakdown where
  duplication : ℕ
  fragmentation : ℕ
  chattiness : ℕ

/-- Modelled from the spec: the `wastedTokens` record of a `TokenBudget`,
the breakdown plus its computed `total`. -/
structure WastedTokensRecord where
  duplication : ℕ
  fragmentation : ℕ
  chattiness : ℕ
  total : ℕ

/-- Modelled from the spec: `TokenBudget` — normalized budget record
produced by the TokenBudgetCalculator. -/
structure TokenBudget where
  totalContextTokens : ℕ
  wastedTokens : WastedTokensRecord
  efficiencyRatio : ℚ
  potentialRetrievableTokens : ℕ

/-- Modelled from the spec: `RECOVERY_FACTOR = 0.8` (not all wasted tokens
are recoverable by refactoring). -/
def RECOVERY_FACTOR : ℚ := 0.8

/-- Clamp a rational to the unit interval `[0, 1]`, as the calculator does
for `efficiencyRatio` and the predictor does for `rate`. -/
def clamp01 (x : ℚ) : ℚ := max 0 (min 1 x)

/-- Modelled from the spec: `calculateTokenBudget` /
`computeBudget(totalContextTokens, wastedTokens)` (engine source missing
from the snapshot). Sums the three waste categories; divides the residual
by the total, with ratio 1.0 by convention when `totalContextTokens == 0`
and a clamp to `[0,1]` otherwise (waste exceeding the total is not
rejected); multiplies waste by the recovery factor, rounding to the
nearest whole token. -/
def calculateTokenBudget (totalContextTokens : ℕ) (wasted : WastedTokenBreakdown) :
    TokenBudget :=
  let total : ℕ := wasted.duplication + wasted.fragmentation + wasted.chattiness
  { totalContextTokens := totalContextTokens
    wastedTokens :=
      { duplication := wasted.duplication
        fragmentation := wasted.fragmentation
        chattiness := wasted.chattiness
        total := total }
    efficiencyRatio :=
      if totalContextTokens = 0 then 1
      else clamp01 (((totalContextTokens : ℚ) - (total : ℚ)) / (totalContextTokens : ℚ))
    potentialRetrievableTokens := (round ((total : ℚ) * RECOVERY_FACTOR)).toNat }

/-- Modelled from the spec: `ModelPricingPreset` — named price-per-1K-tokens
profile with a baseline confidence. -/
structure ModelPricingPreset where
  name : String
  pricePer1KTokens : ℚ
  baselineConfidence : ℚ

/-- Modelled from the spec: the `gpt-4o` entry of `MODEL_PRICING_PRESETS`
($0.005 per 1K tokens; baseline confidence 0.85, the value the tests
observe). This preset is the default when a caller supplies none. -/
def gpt4oPreset : ModelPricingPreset :=
  { name := "gpt-4o", pricePer1KTokens := 0.005, baselineConfidence := 0.85 }

/-- Modelled from the spec: the `gpt-5.3` entry of `MODEL_PRICING_PRESETS`
($0.002 per 1K tokens). The spec does not pin this preset's baseline
confidence; 0.85 is chosen, and no settled claim depends on it. -/
def gpt53Preset : ModelPricingPreset :=
  { name := "gpt-5.3", pricePer1KTokens := 0.002, baselineConfidence := 0.85 }

/-- Modelled from the spec: `MODEL_PRICING_PRESETS` / `lookupPricingPreset`,
the fixed registry keyed by model name; an unregistered name yields no
preset (`UnknownPresetError`). -/
def MODEL_PRICING_PRESETS (name : String) : Option ModelPricingPreset :=
  if name = "gpt-4o" then some gpt4oPreset
  else if name = "gpt-5.3" then some gpt53Preset
  else none

/-- Modelled from the spec: `UsageAssumptions` — caller-supplied scaling of
the monthly wasted-token volume. -/
structure UsageAssumptions where
  developerCount : ℕ
  queriesPerDevPerDay : ℕ
  daysPerMonth : ℕ

/-- Modelled from the spec: `CostEstimate` — total in currency units, a
`[low, high]` range bracketing it, and a confidence. -/
structure CostEstimate where
  total : ℚ
  range : ℚ × ℚ
  confidence : ℚ

/-- Modelled from the spec: the fixed high-waste threshold (in raw wasted
tokens) above which confidence steps down. The spec gives only its order
of magnitude (tens of thousands, with the downgrade observed to trigger
at 100000 tokens and not at 1000); 50000 is chosen within that band. -/
def HIGH_WASTE_THRESHOLD : ℕ := 50000

/-- Modelled from the spec: the fixed lower confidence tier (0.7) used when
the wasted-token volume exceeds the high-waste threshold. -/
def LOW_CONFIDENCE_TIER : ℚ := 0.7

/-- Modelled from the spec: the shared cost formula of the CostEstimator.
`monthlyWastedTokens = waste * queriesPerDevPerDay * developerCount *
daysPerMonth`; `total = (monthlyWastedTokens / 1000) * pricePer1KTokens`;
`range = [total*0.85, total*1.15]`; confidence starts from the preset's
baseline and steps down to the lower tier when the waste figure exceeds
the high-waste threshold. -/
def costEstimateFromWaste (waste : ℕ) (pricePer1KTokens baselineConfidence : ℚ)
    (usage : UsageAssumptions) : CostEstimate :=
  let monthlyWastedTokens : ℕ :=
    waste * usage.queriesPerDevPerDay * usage.developerCount * usage.daysPerMonth
  let total : ℚ := ((monthlyWastedTokens : ℚ) / 1000) * pricePer1KTokens
  { total := total
    range := (total * 0.85, total * 1.15)
    confidence :=
      if HIGH_WASTE_THRESHOLD < waste then LOW_CONFIDENCE_TIER else baselineConfidence }

/-- Modelled from the spec: `estimateCostFromBudget` / `estimateCost(budget,
preset, usage)` (engine source missing from the snapshot) — applies the
cost formula to the budget's waste total under the given preset. -/
def estimateCostFromBudget (budget : TokenBudget) (preset : ModelPricingPreset)
    (usage : UsageAssumptions) : CostEstimate :=
  costEstimateFromWaste budget.wastedTokens.total preset.pricePer1KTokens
    preset.baselineConfidence usage

/-- Modelled from the spec: the assumptions record accepted by the raw-token
overload `calculateMonthlyCost(tokens, assumptions?)`, carrying a price
override alongside the usage figures. -/
structure CostAssumptions where
  pricePer1KTokens : ℚ
  queriesPerDevPerDay : ℕ
  developerCount : ℕ
  daysPerMonth : ℕ

/-- Modelled from the spec: the documented default assumptions used when the
caller supplies none; the price defaults to the default preset's. The spec
does not pin the default usage numbers and no settled claim depends on
them. -/
def DEFAULT_ASSUMPTIONS : CostAssumptions :=
  { pricePer1KTokens := gpt4oPreset.pricePer1KTokens
    queriesPerDevPerDay := 50
    developerCount := 10
    daysPerMonth := 20 }

/-- Modelled from the spec: `calculateMonthlyCost(tokens, assumptions?)` —
the overload that applies the same cost formula directly to a raw token
count as the waste figure, with default assumptions (and the default
preset's baseline confidence) when none are supplied. -/
def calculateMonthlyCost (tokens : ℕ) (assumptions : Option CostAssumptions) :
    CostEstimate :=
  let a := assumptions.getD DEFAULT_ASSUMPTIONS
  costEstimateFromWaste tokens a.pricePer1KTokens gpt4oPreset.baselineConfidence
    { developerCount := a.developerCount
      queriesPerDevPerDay := a.queriesPerDevPerDay
      daysPerMonth := a.daysPerMonth }

/-- Modelled from the spec: `ToolScoringOutput` restricted to the two fields
the engine reads (`toolName`, `score`); `rawMetrics`, `factors` and
`recommendations` are opaque tool-defined payloads the engine never
inspects, omitted here per the spec's design notes. -/
structure ToolScoringOutput where
  toolName : String
  score : ℚ

/-- Modelled from the spec: one attribution entry of an
`AcceptancePrediction`. -/
structure AcceptanceFactor where
  toolName : String
  weight : ℚ
  contribution : ℚ

/-- Modelled from the spec: `AcceptancePrediction` — clamped rate plus the
ordered per-tool attribution. -/
structure AcceptancePrediction where
  rate : ℚ
  factors : List AcceptanceFactor

/-- Modelled from the spec: the fixed per-tool weight table of the
AcceptanceRatePredictor (`pattern-detect -> 0.3`,
`context-analyzer -> 0.4`); tools absent from the table have no weight. -/
def TOOL_WEIGHTS (name : String) : Option ℚ :=
  if name = "pattern-detect" then some 0.3
  else if name = "context-analyzer" then some 0.4
  else none

/-- Modelled from the spec: the fixed base acceptance rate (0.3) assumed
with no quality signal. -/
def BASE_ACCEPTANCE_RATE : ℚ := 0.3

/-- Modelled from the spec: the factor a single tool output contributes to
the prediction — `contribution = weight * (score - 50) / 100` for a tool
in the weight table, nothing for a tool outside it. -/
def acceptanceFactorFor (t : ToolScoringOutput) : Option AcceptanceFactor :=
  (TOOL_WEIGHTS t.toolName).map fun w =>
    { toolName := t.toolName, weight := w, contribution := w * (t.score - 50) / 100 }

/-- Modelled from the spec: `predictAcceptanceRate(toolOutputs)` (engine
source missing from the snapshot). The tool-name-keyed input mapping is
embedded as its ordered list of entries. Accumulates every weighted
tool's contribution onto the base rate, records one factor per
contributing tool, and clamps the final rate to `[0,1]`. -/
def predictAcceptanceRate (toolOutputs : List ToolScoringOutput) : AcceptancePrediction :=
  let factors := toolOutputs.filterMap acceptanceFactorFor
  { rate := clamp01 (BASE_ACCEPTANCE_RATE + (factors.map AcceptanceFactor.contribution).sum)
    factors := factors }

/-- Modelled from the spec: issue severity levels. -/
inductive Severity where
  | minor
  | major
  | critical

/-- Modelled from the spec: `IssueClassification` — the classified issue
consumed by the ValueChainGenerator. -/
structure IssueClassification where
  issueType : String
  count : ℕ
  severity : Severity

/-- Modelled from the spec: the `developerImpact` component of a value
chain. -/
structure DeveloperImpact where
  productivityLoss : ℚ

/-- Modelled from the spec: the `businessOutcome` component of a value
chain. -/
structure BusinessOutcome where
  riskLevel : Severity
  opportunityCost : ℚ

/-- Modelled from the spec: `ValueChain`. -/
structure ValueChain where
  developerImpact : DeveloperImpact
  businessOutcome : BusinessOutcome

/-- Modelled from the spec: the fixed severity-keyed productivity-loss table.
Only `critical -> 0.25` is evidenced; the minor/major values are the
spec's open question, chosen here proportionally below critical, and no
settled claim depends on them. -/
def SEVERITY_PRODUCTIVITY_LOSS : Severity → ℚ
  | Severity.minor => 0.05
  | Severity.major => 0.15
  | Severity.critical => 0.25

/-- Modelled from the spec: `BASELINE_MONTHLY_VALUE = 15000`, the assumed
monthly value of one unit of affected developer productivity. -/
def BASELINE_MONTHLY_VALUE : ℚ := 15000

/-- Modelled from the spec: `generateValueChain(issue)` (engine source
missing from the snapshot). `productivityLoss` comes from the severity
table, `riskLevel` mirrors the issue's severity, and `opportunityCost =
productivityLoss * BASELINE_MONTHLY_VALUE`; `issue.count` does not scale
the result (the observed, count-independent policy). -/
def generateValueChain (issue : IssueClassification) : ValueChain :=
  let loss := SEVERITY_PRODUCTIVITY_LOSS issue.severity
  { developerImpact := { productivityLoss := loss }
    businessOutcome :=
      { riskLevel := issue.severity
        opportunityCost := loss * BASELINE_MONTHLY_VALUE } }


/-! Helper lemmas shared by the claim theorems. -/

lemma clamp01_nonneg (x : ℚ) : 0 ≤ clamp01 x := le_max_left 0 _

lemma clamp01_le_one (x : ℚ) : clamp01 x ≤ 1 := max_le zero_le_one (min_le_left 1 x)

lemma clamp01_eq_self {x : ℚ} (h0 : 0 ≤ x) (h1 : x ≤ 1) : clamp01 x = x := by
  unfold clamp01
  rw [min_eq_right h1, max_eq_right h0]

lemma efficiencyRatio_eq (T : ℕ) (w : WastedTokenBreakdown) :
    TokenBudget.efficiencyRatio (calculateTokenBudget T w) =
      if T = 0 then 1
      else clamp01 (((T : ℚ) -
        ((w.duplication + w.fragmentation + w.chattiness : ℕ) : ℚ)) / (T : ℚ)) :=
  rfl

lemma costEstimateFromWaste_total_nonneg (waste : ℕ) (price conf : ℚ)
    (usage : UsageAssumptions) (hp : 0 ≤ price) :
    0 ≤ (costEstimateFromWaste waste price conf usage).total := by
  show 0 ≤ ((waste * usage.queriesPerDevPerDay * usage.developerCount *
    usage.daysPerMonth : ℕ) : ℚ) / 1000 * price
  positivity

lemma costEstimateFromWaste_range_brackets (waste : ℕ) (price conf : ℚ)
    (usage : UsageAssumptions) (hp : 0 ≤ price) :
    (costEstimateFromWaste waste price conf usage).range.1 =
      (costEstimateFromWaste waste price conf usage).total * 0.85 ∧
    (costEstimateFromWaste waste price conf usage).range.2 =
      (costEstimateFromWaste waste price conf usage).total * 1.15 ∧
    (costEstimateFromWaste waste price conf usage).range.1 ≤
      (costEstimateFromWaste waste price conf usage).total ∧
    (costEstimateFromWaste waste price conf usage).total ≤
      (costEstimateFromWaste waste price conf usage).range.2 := by
  have h0 := costEstimateFromWaste_total_nonneg waste price conf usage hp
  refine ⟨rfl, rfl, ?_, ?_⟩
  · show (costEstimateFromWaste waste price conf usage).total * 0.85 ≤ _
    nlinarith
  · show _ ≤ (costEstimateFromWaste waste price conf usage).total * 1.15
    nlinarith

lemma filterMap_filter_isSome {α β : Type} (f : α → Option β) (l : List α) :
    (l.filter fun a => (f a).isSome).filterMap f = l.filterMap f := by
  induction l with
  | nil => rfl
  | cons a l ih =>
    cases hfa : f a with
    | none => simp [List.filter_cons, List.filterMap_cons, hfa, ih]
    | some b => simp [List.filter_cons, List.filterMap_cons, hfa, ih]

/-- Claim C1: for every token budget, pricing preset and usage assumptions, the
cost estimator returns `total = budget.wastedTokens.total *
queriesPerDevPerDay * developerCount * daysPerMonth / 1000 *
pricePer1KTokens`; in particular a budget with 1000 wasted tokens under
usage {1 dev, 100 queries/day, 30 days} yields total 15 with confidence
0.85 on the `gpt-4o` preset and total 6 on the `gpt-5.3` preset. -/
theorem estimateCostFromBudget_total_spec :
    (∀ (budget : TokenBudget) (preset : ModelPricingPreset) (usage : UsageAssumptions),
      (estimateCostFromBudget budget preset usage).total =
        (budget.wastedTokens.total : ℚ) * (usage.queriesPerDevPerDay : ℚ) *
          (usage.developerCount : ℚ) * (usage.daysPerMonth : ℚ) / 1000 *
          preset.pricePer1KTokens) ∧
    (estimateCostFromBudget (calculateTokenBudget 5000 ⟨1000, 0, 0⟩) gpt4oPreset
      ⟨1, 100, 30⟩).total = 15 ∧
    (estimateCostFromBudget (calculateTokenBudget 5000 ⟨1000, 0, 0⟩) gpt4oPreset
      ⟨1, 100, 30⟩).confidence = 0.85 ∧
    (estimateCostFromBudget (calculateTokenBudget 5000 ⟨1000, 0, 0⟩) gpt53Preset
      ⟨1, 100, 30⟩).total = 6 := by
  refine ⟨fun budget preset usage => ?_, ?_, ?_, ?_⟩
  · show ((budget.wastedTokens.total * usage.queriesPerDevPerDay * usage.developerCount *
      usage.daysPerMonth : ℕ) : ℚ) / 1000 * preset.pricePer1KTokens = _
    push_cast
    ring
  all_goals
    norm_num [estimateCostFromBudget, costEstimateFromWaste, calculateTokenBudget,
      gpt4oPreset, gpt53Preset, HIGH_WASTE_THRESHOLD, LOW_CONFIDENCE_TIER]

/-- Claim C2: `predictAcceptanceRate` returns the base rate 0.3 plus one
contribution `weight * (score - 50) / 100` per tool present in both the
input and the weight table, clamped to `[0,1]`, with exactly one factors
entry per contributing tool; the pattern-detect 80 / context-analyzer 20
inputs yield rate 0.27 and two factors. -/
theorem predictAcceptanceRate_signals_spec :
    (∀ toolOutputs : List ToolScoringOutput,
      (predictAcceptanceRate toolOutputs).factors =
        toolOutputs.filterMap acceptanceFactorFor ∧
      (predictAcceptanceRate toolOutputs).rate =
        clamp01 (BASE_ACCEPTANCE_RATE +
          (((predictAcceptanceRate toolOutputs).factors.map
            AcceptanceFactor.contribution).sum))) ∧
    (∀ (t : ToolScoringOutput) (w : ℚ), TOOL_WEIGHTS t.toolName = some w →
      acceptanceFactorFor t = some ⟨t.toolName, w, w * (t.score - 50) / 100⟩) ∧
    (predictAcceptanceRate [⟨"pattern-detect", 80⟩, ⟨"context-analyzer", 20⟩]).rate =
      0.27 ∧
    (predictAcceptanceRate [⟨"pattern-detect", 80⟩,
      ⟨"context-analyzer", 20⟩]).factors.length = 2 := by
  refine ⟨fun l => ⟨rfl, rfl⟩, fun t w h => ?_, ?_, rfl⟩
  · unfold acceptanceFactorFor
    rw [h]
    rfl
  · have hfac : (predictAcceptanceRate [⟨"pattern-detect", 80⟩,
        ⟨"context-analyzer", 20⟩]).factors =
        [⟨"pattern-detect", 0.3, 0.3 * (80 - 50) / 100⟩,
         ⟨"context-analyzer", 0.4, 0.4 * (20 - 50) / 100⟩] := rfl
    show clamp01 (BASE_ACCEPTANCE_RATE + ((predictAcceptanceRate
        [⟨"pattern-detect", 80⟩, ⟨"context-analyzer", 20⟩]).factors.map
        AcceptanceFactor.contribution).sum) = 0.27
    rw [hfac]
    simp only [List.map_cons, List.map_nil, List.sum_cons, List.sum_nil]
    rw [show BASE_ACCEPTANCE_RATE + (0.3 * (80 - 50) / 100 +
      (0.4 * ((20 : ℚ) - 50) / 100 + 0)) = 0.27 from by norm_num [BASE_ACCEPTANCE_RATE]]
    rw [clamp01_eq_self]
    · norm_num
    · norm_num

/-- Witness for C2 at a concrete weighted tool. -/
theorem predictAcceptanceRate_signals_spec_witness :
    acceptanceFactorFor ⟨"pattern-detect", 80⟩ =
      some ⟨"pattern-detect", 0.3, 0.3 * ((80 : ℚ) - 50) / 100⟩ :=
  predictAcceptanceRate_signals_spec.2.1 ⟨"pattern-detect", 80⟩ 0.3 rfl

/-- Claim C3: a critical issue yields productivityLoss 0.25, riskLevel equal to
the issue's severity, and opportunityCost = productivityLoss * 15000 = 3750,
independently of the issue's count. -/
theorem generateValueChain_critical_spec :
    (∀ (t : String) (c : ℕ),
      (generateValueChain ⟨t, c, Severity.critical⟩).developerImpact.productivityLoss =
        0.25 ∧
      (generateValueChain ⟨t, c, Severity.critical⟩).businessOutcome.riskLevel =
        Severity.critical ∧
      (generateValueChain ⟨t, c, Severity.critical⟩).businessOutcome.opportunityCost =
        (generateValueChain ⟨t, c, Severity.critical⟩).developerImpact.productivityLoss *
          15000 ∧
      (generateValueChain ⟨t, c, Severity.critical⟩).businessOutcome.opportunityCost =
        3750) ∧
    (∀ (issue : IssueClassification) (c : ℕ),
      generateValueChain ⟨issue.issueType, c, issue.severity⟩ =
        generateValueChain issue) ∧
    (generateValueChain ⟨"context-fragmentation", 5,
      Severity.critical⟩).businessOutcome.opportunityCost = 3750 := by
  refine ⟨fun t c => ⟨?_, rfl, ?_, ?_⟩, fun issue c => ?_, ?_⟩
  · norm_num [generateValueChain, SEVERITY_PRODUCTIVITY_LOSS]
  · rfl
  · norm_num [generateValueChain, SEVERITY_PRODUCTIVITY_LOSS, BASELINE_MONTHLY_VALUE]
  · cases issue
    rfl
  · norm_num [generateValueChain, SEVERITY_PRODUCTIVITY_LOSS, BASELINE_MONTHLY_VALUE]

/-- Claim C4: the budget's efficiencyRatio is `(totalContextTokens -
wastedTokens.total) / totalContextTokens` when the total is positive (and
the waste does not overshoot it), is 1.0 when `totalContextTokens = 0`,
and is always clamped to `[0,1]`, even when reported waste exceeds the
total (that precondition is not enforced). -/
theorem calculateTokenBudget_efficiency_spec (T : ℕ) (w : WastedTokenBreakdown) :
    (T = 0 → TokenBudget.efficiencyRatio (calculateTokenBudget T w) = 1) ∧
    (0 < T → ((calculateTokenBudget T w).wastedTokens.total : ℚ) ≤ (T : ℚ) →
      TokenBudget.efficiencyRatio (calculateTokenBudget T w) =
        ((T : ℚ) - ((calculateTokenBudget T w).wastedTokens.total : ℚ)) / (T : ℚ)) ∧
    0 ≤ TokenBudget.efficiencyRatio (calculateTokenBudget T w) ∧
    TokenBudget.efficiencyRatio (calculateTokenBudget T w) ≤ 1 := by
  have htot : (calculateTokenBudget T w).wastedTokens.total =
      w.duplication + w.fragmentation + w.chattiness := rfl
  refine ⟨fun h => by rw [efficiencyRatio_eq, if_pos h], ?_, ?_, ?_⟩
  · intro hT hle
    rw [htot] at hle
    have hTq : (0 : ℚ) < (T : ℚ) := by exact_mod_cast hT
    rw [efficiencyRatio_eq, if_neg (Nat.pos_iff_ne_zero.mp hT), htot]
    rw [clamp01_eq_self]
    · exact div_nonneg (by linarith) (le_of_lt hTq)
    · rw [div_le_one hTq]
      have hW0 : (0 : ℚ) ≤ ((w.duplication + w.fragmentation + w.chattiness : ℕ) : ℚ) := by
        positivity
      linarith
  · rw [efficiencyRatio_eq]
    split
    · norm_num
    · exact clamp01_nonneg _
  · rw [efficiencyRatio_eq]
    split
    · norm_num
    · exact clamp01_le_one _

/-- Witness for C4 at the test suite's budget (10000 total, 1500 waste). -/
theorem calculateTokenBudget_efficiency_spec_witness :
    TokenBudget.efficiencyRatio (calculateTokenBudget 10000 ⟨1000, 500, 0⟩) =
      ((10000 : ℚ) -
        ((calculateTokenBudget 10000 ⟨1000, 500, 0⟩).wastedTokens.total : ℚ)) /
        (10000 : ℚ) :=
  (calculateTokenBudget_efficiency_spec 10000 ⟨1000, 500, 0⟩).2.1 (by decide)
    (by show ((1500 : ℕ) : ℚ) ≤ (10000 : ℚ); norm_num)

/-- Claim C5: the budget's waste total is the sum of the three categories;
inputs 1000/500/0 give total 1500. -/
theorem calculateTokenBudget_wasteTotal_spec :
    (∀ (T : ℕ) (w : WastedTokenBreakdown),
      (calculateTokenBudget T w).wastedTokens.total =
        w.duplication + w.fragmentation + w.chattiness) ∧
    (calculateTokenBudget 10000 ⟨1000, 500, 0⟩).wastedTokens.total = 1500 :=
  ⟨fun _ _ => rfl, rfl⟩

/-- Claim C6: `calculateMonthlyCost 100000` with no usage override yields
confidence 0.7; in general the confidence is the default preset's baseline
stepped down to the fixed lower tier exactly when the raw wasted-token
volume exceeds the fixed high-waste threshold. -/
theorem calculateMonthlyCost_confidence_spec :
    (calculateMonthlyCost 100000 none).confidence = 0.7 ∧
    (∀ (tokens : ℕ) (assumptions : Option CostAssumptions),
      (calculateMonthlyCost tokens assumptions).confidence =
        if HIGH_WASTE_THRESHOLD < tokens then LOW_CONFIDENCE_TIER
        else gpt4oPreset.baselineConfidence) ∧
    (∀ (tokens : ℕ) (assumptions : Option CostAssumptions),
      (calculateMonthlyCost tokens assumptions).confidence = LOW_CONFIDENCE_TIER ↔
        HIGH_WASTE_THRESHOLD < tokens) := by
  refine ⟨?_, fun tokens assumptions => rfl, fun tokens assumptions => ?_⟩
  · norm_num [calculateMonthlyCost, costEstimateFromWaste, HIGH_WASTE_THRESHOLD,
      LOW_CONFIDENCE_TIER]
  · show (if HIGH_WASTE_THRESHOLD < tokens then LOW_CONFIDENCE_TIER
      else gpt4oPreset.baselineConfidence) = LOW_CONFIDENCE_TIER ↔ _
    split
    · next h => exact iff_of_true rfl h
    · next h =>
        exact iff_of_false (by norm_num [gpt4oPreset, LOW_CONFIDENCE_TIER]) h

/-- Claim C7: every cost estimate (budget-based or raw-token) has `range.1 =
total * 0.85` and `range.2 = total * 1.15`, and the range brackets the
total, `low ≤ total ≤ high` (given the preset's price is non-negative, as
the data model requires). -/
theorem costEstimate_range_brackets_total :
    (∀ (budget : TokenBudget) (preset : ModelPricingPreset) (usage : UsageAssumptions),
      0 ≤ preset.pricePer1KTokens →
        (estimateCostFromBudget budget preset usage).range.1 =
          (estimateCostFromBudget budget preset usage).total * 0.85 ∧
        (estimateCostFromBudget budget preset usage).range.2 =
          (estimateCostFromBudget budget preset usage).total * 1.15 ∧
        (estimateCostFromBudget budget preset usage).range.1 ≤
          (estimateCostFromBudget budget preset usage).total ∧
        (estimateCostFromBudget budget preset usage).total ≤
          (estimateCostFromBudget budget preset usage).range.2) ∧
    (∀ (tokens : ℕ) (assumptions : Option CostAssumptions),
      0 ≤ (assumptions.getD DEFAULT_ASSUMPTIONS).pricePer1KTokens →
        (calculateMonthlyCost tokens assumptions).range.1 ≤
          (calculateMonthlyCost tokens assumptions).total ∧
        (calculateMonthlyCost tokens assumptions).total ≤
          (calculateMonthlyCost tokens assumptions).range.2) := by
  constructor
  · intro budget preset usage hp
    exact costEstimateFromWaste_range_brackets budget.wastedTokens.total
      preset.pricePer1KTokens preset.baselineConfidence usage hp
  · intro tokens assumptions hp
    exact (costEstimateFromWaste_range_brackets tokens
      (assumptions.getD DEFAULT_ASSUMPTIONS).pricePer1KTokens
      gpt4oPreset.baselineConfidence _ hp).2.2

/-- Witness for C7 on the test suite's gpt-4o estimate and a raw-token call. -/
theorem costEstimate_range_brackets_total_witness :
    ((estimateCostFromBudget (calculateTokenBudget 5000 ⟨1000, 0, 0⟩) gpt4oPreset
        ⟨1, 100, 30⟩).range.1 ≤
      (estimateCostFromBudget (calculateTokenBudget 5000 ⟨1000, 0, 0⟩) gpt4oPreset
        ⟨1, 100, 30⟩).total) ∧
    ((calculateMonthlyCost 1000 none).range.1 ≤ (calculateMonthlyCost 1000 none).total) :=
  ⟨(costEstimate_range_brackets_total.1 (calculateTokenBudget 5000 ⟨1000, 0, 0⟩)
      gpt4oPreset ⟨1, 100, 30⟩ (by norm_num [gpt4oPreset])).2.2.1,
   (costEstimate_range_brackets_total.2 1000 none
      (by norm_num [DEFAULT_ASSUMPTIONS, gpt4oPreset])).1⟩

/-- Claim C8: `potentialRetrievableTokens` is the waste total times the 0.8
recovery factor, rounded to the nearest whole token; waste 1500 gives
1200. -/
theorem calculateTokenBudget_retrievable_spec :
    (∀ (T : ℕ) (w : WastedTokenBreakdown),
      ((calculateTokenBudget T w).potentialRetrievableTokens : ℤ) =
        round (((calculateTokenBudget T w).wastedTokens.total : ℚ) * 0.8)) ∧
    (calculateTokenBudget 10000 ⟨1000, 500, 0⟩).potentialRetrievableTokens = 1200 := by
  constructor
  · intro T w
    show ((round (((w.duplication + w.fragmentation + w.chattiness : ℕ) : ℚ) *
      RECOVERY_FACTOR)).toNat : ℤ) = _
    rw [Int.toNat_of_nonneg]
    · rfl
    · rw [round_eq]
      refine Int.le_floor.mpr ?_
      have h : (0 : ℚ) ≤ ((w.duplication + w.fragmentation + w.chattiness : ℕ) : ℚ) *
          RECOVERY_FACTOR := by
        unfold RECOVERY_FACTOR
        positivity
      push_cast at h ⊢
      linarith
  · show (round ((((1000 + 500 + 0 : ℕ) : ℚ)) * RECOVERY_FACTOR)).toNat = 1200
    norm_num [RECOVERY_FACTOR, round_eq]
    rfl

/-- Claim C9: tools absent from the weight table contribute nothing and
produce no factors entry — the prediction over the full input equals the
prediction over the weighted tools alone (and the call always succeeds,
being a total function). -/
theorem predictAcceptanceRate_ignores_unknown :
    ∀ toolOutputs : List ToolScoringOutput,
      predictAcceptanceRate
        (toolOutputs.filter fun t => (TOOL_WEIGHTS t.toolName).isSome) =
        predictAcceptanceRate toolOutputs := by
  intro l
  have hpred : (fun t : ToolScoringOutput => (TOOL_WEIGHTS t.toolName).isSome) =
      fun t => (acceptanceFactorFor t).isSome := by
    funext t
    unfold acceptanceFactorFor
    cases TOOL_WEIGHTS t.toolName <;> rfl
  unfold predictAcceptanceRate
  rw [hpred, filterMap_filter_isSome]

/-- Claim C10 counterexample: with totalContextTokens 100 held fixed,
raising duplication from 200 to 300 leaves the clamped efficiencyRatio
unchanged (both 0), so the strict decrease claimed for every pair of
inputs fails. -/
theorem efficiencyRatio_clamped_no_strict_decrease :
    TokenBudget.efficiencyRatio (calculateTokenBudget 100 ⟨200, 0, 0⟩) =
      TokenBudget.efficiencyRatio (calculateTokenBudget 100 ⟨300, 0, 0⟩) ∧
    ¬ TokenBudget.efficiencyRatio (calculateTokenBudget 100 ⟨300, 0, 0⟩) <
        TokenBudget.efficiencyRatio (calculateTokenBudget 100 ⟨200, 0, 0⟩) := by
  constructor
  · rw [efficiencyRatio_eq, efficiencyRatio_eq]
    norm_num [clamp01]
  · rw [efficiencyRatio_eq, efficiencyRatio_eq]
    norm_num [clamp01]

/-- Claim C10 as amended: holding totalContextTokens fixed and positive,
strictly increasing the waste (any single category raised strictly raises
the total) strictly decreases the efficiencyRatio, provided the original
waste total is strictly below totalContextTokens; at or beyond that point
the clamp holds the ratio at its bound. -/
theorem efficiencyRatio_strict_decrease_amended (T : ℕ) (w w' : WastedTokenBreakdown)
    (hT : 0 < T)
    (hlt : w.duplication + w.fragmentation + w.chattiness <
      w'.duplication + w'.fragmentation + w'.chattiness)
    (hbelow : w.duplication + w.fragmentation + w.chattiness < T) :
    TokenBudget.efficiencyRatio (calculateTokenBudget T w') <
      TokenBudget.efficiencyRatio (calculateTokenBudget T w) := by
  have hTq : (0 : ℚ) < (T : ℚ) := by exact_mod_cast hT
  have hWq : ((w.duplication + w.fragmentation + w.chattiness : ℕ) : ℚ) <
      ((w'.duplication + w'.fragmentation + w'.chattiness : ℕ) : ℚ) := by exact_mod_cast hlt
  have hWT : ((w.duplication + w.fragmentation + w.chattiness : ℕ) : ℚ) < (T : ℚ) := by
    exact_mod_cast hbelow
  have hW0 : (0 : ℚ) ≤ ((w.duplication + w.fragmentation + w.chattiness : ℕ) : ℚ) := by
    positivity
  rw [efficiencyRatio_eq, efficiencyRatio_eq, if_neg (Nat.pos_iff_ne_zero.mp hT),
    if_neg (Nat.pos_iff_ne_zero.mp hT)]
  have hr0 : (0 : ℚ) <
      ((T : ℚ) - ((w.duplication + w.fragmentation + w.chattiness : ℕ) : ℚ)) / (T : ℚ) :=
    div_pos (by linarith) hTq
  have hr1 : ((T : ℚ) - ((w.duplication + w.fragmentation + w.chattiness : ℕ) : ℚ)) /
      (T : ℚ) ≤ 1 := by
    rw [div_le_one hTq]
    linarith
  rw [clamp01_eq_self (le_of_lt hr0) hr1]
  have hrr : ((T : ℚ) - ((w'.duplication + w'.fragmentation + w'.chattiness : ℕ) : ℚ)) /
      (T : ℚ) <
      ((T : ℚ) - ((w.duplication + w.fragmentation + w.chattiness : ℕ) : ℚ)) / (T : ℚ) :=
    (div_lt_div_iff_of_pos_right hTq).mpr (by linarith)
  calc clamp01 (((T : ℚ) -
        ((w'.duplication + w'.fragmentation + w'.chattiness : ℕ) : ℚ)) / (T : ℚ))
      ≤ max 0 (((T : ℚ) -
        ((w'.duplication + w'.fragmentation + w'.chattiness : ℕ) : ℚ)) / (T : ℚ)) := by
        unfold clamp01
        exact max_le_max le_rfl (min_le_right _ _)
    _ < ((T : ℚ) - ((w.duplication + w.fragmentation + w.chattiness : ℕ) : ℚ)) / (T : ℚ) :=
        max_lt hr0 hrr

/-- Witness for the amended C10: total 10, duplication 1 versus 2. -/
theorem efficiencyRatio_strict_decrease_amended_witness :
    TokenBudget.efficiencyRatio (calculateTokenBudget 10 ⟨2, 0, 0⟩) <
      TokenBudget.efficiencyRatio (calculateTokenBudget 10 ⟨1, 0, 0⟩) :=
  efficiencyRatio_strict_decrease_amended 10 ⟨1, 0, 0⟩ ⟨2, 0, 0⟩ (by decide) (by decide)
    (by decide)

end AIReady
